import Mathlib

/-!
Verification development for the useLayercodeAgent React hook
(layercodedev/layercode-react-sdk, src/src/index.tsx).

The hook is a client-side session/device controller.  We shallowly embed its
state (the React useState fields plus the useRef cells) as a record, and each
state-writing operation (connect, disconnect, refreshInputDevices,
selectInputDevice, the hot-plug watch callback, and the event callbacks the
hook registers on the external LayercodeClient) as a pure function on that
record.  Asynchronous collaborators (the external streaming client and the
device enumeration service) are modelled by explicit result parameters: each
operation takes the outcome the external call would produce.  JavaScript
numbers carrying amplitudes are embedded as rationals; the tri-state
string | null | undefined of internalConversationId is Option (Option String)
with none = undefined and some none = null.
-/

namespace Layercode

/-- Normalized audio input device record, as enumerated by the external
device enumeration service (LayercodeAudioInputDevice). -/
structure Device where
  deviceId : String
  label : String
  default : Bool
deriving DecidableEq

/-- Source line 35: collapses undefined/null, the empty string and the literal
string "default" to null; any other identifier is kept. -/
def normalizeDeviceId (deviceId : Option String) : Option String :=
  match deviceId with
  | none => none
  | some s => if s = "" ∨ s = "default" then none else some s

/-- The expression devices.find(d => d.default) ?? devices[0] used by
refreshInputDevices (line 116) and the watch callback (line 178). -/
def pickDefault (devices : List Device) : Option Device :=
  match devices.find? (fun d => d.default) with
  | some d => some d
  | none => devices.head?

/-- Configuration captured by a LayercodeClient instance at construction
(the fields of the constructor argument relevant to the claims). -/
structure ClientConfig where
  agentId : String
  conversationId : Option String
  authorizeSessionEndpoint : String
  audioInput : Bool
  audioOutput : Bool
  enableVAD : Bool
  enableAmplitudeMonitoring : Bool
deriving DecidableEq

/-- A Client Handle: one external LayercodeClient instance.  The generation
number distinguishes instances created by successive connect() calls; isMuted
is the initial mute state the instance reports at creation. -/
structure Client where
  gen : Nat
  config : ClientConfig
  isMuted : Bool
deriving DecidableEq

/-- The hook options that stay fixed for a hook instance (the destructured
UseLayercodeAgentOptions, with the ?? true defaults of lines 71-73 and 80-81
already applied).  conversationId = none models an omitted (undefined) prop. -/
structure HookOptions where
  agentId : String
  conversationId : Option String
  authorizeSessionEndpoint : String
  audioInput : Bool
  audioOutput : Bool
  enableVAD : Bool
  enableAmplitudeMonitoring : Bool
  autoLoadInputDevices : Bool
deriving DecidableEq

/-- The hook state: every useState field plus the useRef cells that the
operations read or write (lines 75-93).  internalConversationId is
string | null | undefined, embedded as Option (Option String) with
none = undefined and some none = null; conversationIdRef is
string | undefined; preferredInputDeviceRef is string | null. -/
structure HookState where
  status : String
  userAudioAmplitude : Rat
  agentAudioAmplitude : Rat
  userSpeaking : Bool
  agentSpeaking : Bool
  audioInput : Bool
  audioOutput : Bool
  isMuted : Bool
  internalConversationId : Option (Option String)
  availableInputDevices : List Device
  activeInputDeviceId : Option String
  preferredInputDeviceId : Option String
  isInputDeviceListLoading : Bool
  inputDeviceListError : Option String
  conversationIdRef : Option String
  preferredInputDeviceRef : Option String
  mountedRef : Bool
  clientRef : Option Client
  nextGen : Nat
deriving DecidableEq

/-- Initial hook state (the useState initializers of lines 75-93). -/
def initState (opts : HookOptions) : HookState where
  status := "initializing"
  userAudioAmplitude := 0
  agentAudioAmplitude := 0
  userSpeaking := false
  agentSpeaking := false
  audioInput := opts.audioInput
  audioOutput := opts.audioOutput
  isMuted := false
  internalConversationId :=
    match opts.conversationId with
    | some v => some (some v)
    | none => none
  availableInputDevices := []
  activeInputDeviceId := none
  preferredInputDeviceId := none
  isInputDeviceListLoading := false
  inputDeviceListError := none
  conversationIdRef := opts.conversationId
  preferredInputDeviceRef := none
  mountedRef := true
  clientRef := none
  nextGen := 0

/-- Result of a promise-returning operation: resolve with a value, or reject
with an error message. -/
inductive OpResult (α : Type) where
  | ok (value : α)
  | error (msg : String)
deriving DecidableEq

/-- Events a LayercodeClient instance can deliver to the callbacks the hook
registered on it at construction (lines 202-266).  Events that only forward
to caller callbacks without touching hook state (onDisconnect, onError,
onDataMessage, onMessage) are omitted since they do not mutate the state. -/
inductive ClientEvent where
  | statusChange (newStatus : String)
  | userAmplitude (amplitude : Rat)
  | agentAmplitude (amplitude : Rat)
  | userSpeakingChange (isSpeaking : Bool)
  | agentSpeakingChange (isSpeaking : Bool)
  | muteStateChange (muted : Bool)
  | connect (conversationId : Option String)
  | deviceSwitched (deviceId : String)
  | devicesChanged (devices : List Device)
  | audioInputChanged (next : Bool)
  | audioOutputChanged (next : Bool)
deriving DecidableEq

/-- The effect on hook state of an event fired by client c.  These are the
closures registered in createClient: note that none of them compares c with
the current clientRef, so the update is applied whether or not c is still the
current handle.  The amplitude callbacks are registered only when amplitude
monitoring was enabled at the creation of c (lines 245-254). -/
def applyClientEvent (c : Client) (e : ClientEvent) (s : HookState) : HookState :=
  match e with
  | .statusChange newStatus => { s with status := newStatus }
  | .userAmplitude amplitude =>
      if c.config.enableAmplitudeMonitoring then
        { s with userAudioAmplitude := amplitude }
      else s
  | .agentAmplitude amplitude =>
      if c.config.enableAmplitudeMonitoring then
        { s with agentAudioAmplitude := amplitude }
      else s
  | .userSpeakingChange isSpeaking => { s with userSpeaking := isSpeaking }
  | .agentSpeakingChange isSpeaking => { s with agentSpeaking := isSpeaking }
  | .muteStateChange muted => { s with isMuted := muted }
  | .connect conversationId =>
      { s with internalConversationId :=
          if s.conversationIdRef = none then
            some conversationId
          else
            match conversationId with
            | some v => some (some v)
            | none => some (s.internalConversationId.getD none) }
  | .deviceSwitched deviceId =>
      let normalized := normalizeDeviceId (some deviceId)
      if s.preferredInputDeviceRef = none then
        { s with activeInputDeviceId := normalized,
                 preferredInputDeviceId := normalized }
      else
        { s with activeInputDeviceId := normalized }
  | .devicesChanged devices =>
      { s with availableInputDevices := devices, inputDeviceListError := none }
  | .audioInputChanged next => { s with audioInput := next }
  | .audioOutputChanged next => { s with audioOutput := next }

/-- The LayercodeClient instance built by createClient (lines 190-268):
configuration snapshot of the hook options and the current audio enablement
state, with a fresh generation number. -/
def createClient (opts : HookOptions) (initialConversationId : Option String)
    (clientInitMuted : Bool) (s : HookState) : Client where
  gen := s.nextGen
  config :=
    { agentId := opts.agentId
      conversationId := initialConversationId
      authorizeSessionEndpoint := opts.authorizeSessionEndpoint
      audioInput := s.audioInput
      audioOutput := s.audioOutput
      enableVAD := opts.enableVAD
      enableAmplitudeMonitoring := opts.enableAmplitudeMonitoring }
  isMuted := clientInitMuted

/-- The state mutations performed synchronously by createClient after
constructing the instance (lines 274-279): reset both speaking flags, adopt
the new instance mute state, and store the instance in clientRef.  The
amplitude fields are not touched here. -/
def createClientState (opts : HookOptions) (initialConversationId : Option String)
    (clientInitMuted : Bool) (s : HookState) : HookState :=
  { s with
    userSpeaking := false
    agentSpeaking := false
    isMuted := clientInitMuted
    clientRef := some (createClient opts initialConversationId clientInitMuted s)
    nextGen := s.nextGen + 1 }

/-- Line 388-395 of connect(): tear down an existing client (failures only
logged) and clear the reference. -/
def clearOldClient (s : HookState) : HookState :=
  if s.clientRef.isSome then { s with clientRef := none } else s

/-- Line 397: conversationIdRef.current !== undefined ? conversationIdRef.current
: internalConversationId ?? null (and the ?? null applied again at the
createClient call site). -/
def nextConversationId (s : HookState) : Option String :=
  match s.conversationIdRef with
  | some v => some v
  | none =>
    match s.internalConversationId with
    | some (some v) => some v
    | _ => none

/-- Outcomes of the external calls a connect() performs: the teardown of an
existing client, the initial mute state of the new instance, the
setPreferredInputDevice and connect awaits, and whether the connected client
reports audio input enabled. -/
structure ConnectEnv where
  oldDisconnectError : Option String
  clientInitMuted : Bool
  prefApplyError : Option String
  connectError : Option String
  audioInputEnabled : Bool
deriving DecidableEq

/-- What a connect() call produced: the final hook state, the settled
promise, the errors passed to the caller onError callback, the errors only
written to the console, whether the non-blocking device refresh was
triggered, whether an existing client was disconnected first, and the client
instance that was created. -/
structure ConnectOutcome where
  state : HookState
  result : OpResult Unit
  onErrorCalls : List String
  consoleErrors : List String
  refreshTriggered : Bool
  oldDisconnectCalled : Bool
  created : Client
deriving DecidableEq

/-- connect() (lines 387-415).  An existing client is disconnected first and
its reference cleared; a teardown failure is written to the console only and
does not abort.  A new client is created from the resolved conversation
identity; then setPreferredInputDevice and connect are awaited inside the
try.  A failure there is logged, passed to the caller onError callback and
re-thrown (the promise rejects).  On success, if the client reports audio
input enabled, a non-blocking refreshInputDevices is started. -/
def connectOp (opts : HookOptions) (env : ConnectEnv) (s : HookState) : ConnectOutcome :=
  let teardownLog :=
    if s.clientRef.isSome then
      match env.oldDisconnectError with
      | some e => [e]
      | none => []
    else []
  let s1 := clearOldClient s
  let cid := nextConversationId s1
  let client := createClient opts cid env.clientInitMuted s1
  let s2 := createClientState opts cid env.clientInitMuted s1
  match env.prefApplyError with
  | some e => ⟨s2, .error e, [e], teardownLog ++ [e], false, s.clientRef.isSome, client⟩
  | none =>
    match env.connectError with
    | some e => ⟨s2, .error e, [e], teardownLog ++ [e], false, s.clientRef.isSome, client⟩
    | none => ⟨s2, .ok (), [], teardownLog, env.audioInputEnabled, s.clientRef.isSome, client⟩

/-- What a disconnect() call produced. -/
structure DisconnectOutcome where
  state : HookState
  result : OpResult Unit
  warnedNoClient : Bool
deriving DecidableEq

/-- The hook state at the moment disconnect() awaits the underlying teardown
(line 423 has already run): the reference is cleared before the await. -/
def disconnectAwaitState (s : HookState) : HookState :=
  { s with clientRef := none }

/-- disconnect() (lines 416-431): warn and resolve if no client exists;
otherwise clear clientRef synchronously, await teardown, and reject with any
teardown failure. -/
def disconnectOp (s : HookState) (teardownError : Option String) : DisconnectOutcome :=
  if s.clientRef.isNone then
    ⟨s, .ok (), true⟩
  else
    match teardownError with
    | none => ⟨disconnectAwaitState s, .ok (), false⟩
    | some e => ⟨disconnectAwaitState s, .error e, false⟩

/-- What a refreshInputDevices() call produced: the final hook state, the
settled promise, and whether the enumeration service was invoked. -/
structure RefreshOutcome where
  state : HookState
  result : OpResult (List Device)
  enumerationCalled : Bool
deriving DecidableEq

/-- refreshInputDevices (lines 96-131).  hasWindow models the guard of line
97 (window and navigator both defined); enumResult is the outcome of the
awaited listAudioInputDevices call.  The loading flag is set before the
await and reset in the finally block only while mounted; all other state
writes are guarded by mountedRef. -/
def refreshInputDevices (hasWindow : Bool) (enumResult : OpResult (List Device))
    (s : HookState) : RefreshOutcome :=
  if hasWindow = false then
    ⟨s, .ok [], false⟩
  else
    let loading := { s with isInputDeviceListLoading := true }
    let finishLoading := fun (st : HookState) =>
      if st.mountedRef then { st with isInputDeviceListLoading := false } else st
    match enumResult with
    | .error msg =>
      if loading.mountedRef then
        ⟨finishLoading { loading with inputDeviceListError := some msg }, .error msg, true⟩
      else
        ⟨finishLoading loading, .error msg, true⟩
    | .ok devices =>
      if loading.mountedRef = false then
        ⟨finishLoading loading, .ok devices, true⟩
      else
        let s1 := { loading with availableInputDevices := devices,
                                 inputDeviceListError := none }
        if devices.isEmpty then
          ⟨finishLoading { s1 with activeInputDeviceId := none }, .ok devices, true⟩
        else if s1.preferredInputDeviceRef = none then
          let newActive := normalizeDeviceId ((pickDefault devices).map Device.deviceId)
          ⟨finishLoading { s1 with activeInputDeviceId := newActive }, .ok devices, true⟩
        else
          ⟨finishLoading s1, .ok devices, true⟩

/-- What a selectInputDevice() call produced. -/
structure SelectOutcome where
  state : HookState
  result : OpResult Unit
deriving DecidableEq

/-- selectInputDevice (lines 356-373): normalize and store the preference in
both the state field and the ref, clear the device-list error; if a client
exists, await its setPreferredInputDevice, recording a failure as the
device-list error and rejecting with it. -/
def selectInputDevice (deviceId : Option String) (switchError : Option String)
    (s : HookState) : SelectOutcome :=
  let normalized := normalizeDeviceId deviceId
  let s1 := { s with
    preferredInputDeviceId := normalized
    preferredInputDeviceRef := normalized
    inputDeviceListError := none }
  if s1.clientRef.isNone then
    ⟨s1, .ok ()⟩
  else
    match switchError with
    | none => ⟨s1, .ok ()⟩
    | some e => ⟨{ s1 with inputDeviceListError := some e }, .error e⟩

/-- The hot-plug watch callback registered with watchAudioInputDevices
(lines 174-183). -/
def watchDevicesCallback (devices : List Device) (s : HookState) : HookState :=
  let s1 := { s with availableInputDevices := devices, inputDeviceListError := none }
  if devices.isEmpty = false ∧ s.preferredInputDeviceRef = none then
    let newActive := normalizeDeviceId ((pickDefault devices).map Device.deviceId)
    { s1 with activeInputDeviceId := newActive }
  else if devices.isEmpty then
    { s1 with activeInputDeviceId := none }
  else
    s1

/-- One state-writing step of the hook: a call of one of its operations
(with the outcomes of the external calls it performs), a hot-plug watch
delivery, an event from a client instance, or the effect of lines 155-157
that copies preferredInputDeviceId into its ref. -/
inductive Action where
  | connectCall (env : ConnectEnv)
  | disconnectCall (teardownError : Option String)
  | refreshCall (hasWindow : Bool) (enumResult : OpResult (List Device))
  | selectDeviceCall (deviceId : Option String) (switchError : Option String)
  | watchDelivery (devices : List Device)
  | clientEvent (c : Client) (e : ClientEvent)
  | syncPreferredRef
deriving DecidableEq

/-- State transition of one Action. -/
def applyAction (opts : HookOptions) (a : Action) (s : HookState) : HookState :=
  match a with
  | .connectCall env => (connectOp opts env s).state
  | .disconnectCall teardownError => (disconnectOp s teardownError).state
  | .refreshCall hasWindow enumResult => (refreshInputDevices hasWindow enumResult s).state
  | .selectDeviceCall deviceId switchError => (selectInputDevice deviceId switchError s).state
  | .watchDelivery devices => watchDevicesCallback devices s
  | .clientEvent c e => applyClientEvent c e s
  | .syncPreferredRef => { s with preferredInputDeviceRef := s.preferredInputDeviceId }

/-! Concrete fixtures used by the counterexamples and witnesses. -/

/-- A hook instance created without an explicit conversationId. -/
def opts0 : HookOptions where
  agentId := "agent-1"
  conversationId := none
  authorizeSessionEndpoint := "/api/authorize"
  audioInput := true
  audioOutput := true
  enableVAD := true
  enableAmplitudeMonitoring := true
  autoLoadInputDevices := true

/-- A hook instance created with the explicit conversationId "abc". -/
def optsAbc : HookOptions :=
  { opts0 with conversationId := some "abc" }

/-- External outcomes of a connect() where every awaited call succeeds. -/
def envOk : ConnectEnv where
  oldDisconnectError := none
  clientInitMuted := false
  prefApplyError := none
  connectError := none
  audioInputEnabled := true

/-- The client created by the first successful connect() of an opts0 hook. -/
def client0 : Client :=
  (connectOp opts0 envOk (initState opts0)).created

/-- Hook state right after the first successful connect() of an opts0 hook. -/
def s1c : HookState :=
  (connectOp opts0 envOk (initState opts0)).state

/-- The client created by the first successful connect() of an optsAbc hook. -/
def clientAbc : Client :=
  (connectOp optsAbc envOk (initState optsAbc)).created

/-- Hook state right after the first successful connect() of an optsAbc hook. -/
def sAbc : HookState :=
  (connectOp optsAbc envOk (initState optsAbc)).state

/-- Device fixtures. -/
def devA : Device where
  deviceId := "A"
  label := "Mic A"
  default := true

def devB : Device where
  deviceId := "B"
  label := "Mic B"
  default := false

/-- A device whose platform identifier is the default sentinel string. -/
def devDefault : Device where
  deviceId := "default"
  label := "System Default"
  default := true

/-! Helper lemmas shared by several claims. -/

/-- Clearing the old client is the same as unconditionally nulling clientRef. -/
theorem clearOldClient_eq (s : HookState) :
    clearOldClient s = { s with clientRef := none } := by
  unfold clearOldClient
  cases hc : s.clientRef
  · simp only [hc, Option.isSome_none, Bool.false_eq_true, if_false]
    cases s
    simp_all
  · simp [hc]

/-- The state a connect() ends in, whatever the outcomes of the awaited calls:
the old reference is cleared and createClient runs on the result. -/
theorem connectOp_state (opts : HookOptions) (env : ConnectEnv) (s : HookState) :
    (connectOp opts env s).state =
      createClientState opts (nextConversationId (clearOldClient s))
        env.clientInitMuted (clearOldClient s) := by
  obtain ⟨ode, cim, pae, ce, aie⟩ := env
  cases pae <;> cases ce <;> rfl

/-- The client a connect() creates, whatever the outcomes of the awaited calls. -/
theorem connectOp_created (opts : HookOptions) (env : ConnectEnv) (s : HookState) :
    (connectOp opts env s).created =
      createClient opts (nextConversationId (clearOldClient s))
        env.clientInitMuted (clearOldClient s) := by
  obtain ⟨ode, cim, pae, ce, aie⟩ := env
  cases pae <;> cases ce <;> rfl

/-- connect() does not write the device preference or the active device. -/
theorem connectOp_device_ids (opts : HookOptions) (env : ConnectEnv) (s : HookState) :
    (connectOp opts env s).state.preferredInputDeviceId = s.preferredInputDeviceId ∧
    (connectOp opts env s).state.activeInputDeviceId = s.activeInputDeviceId := by
  rw [connectOp_state, clearOldClient_eq]
  exact ⟨rfl, rfl⟩

/-! Claim theorems. -/

/-- C10: in an environment without a window or navigator global,
refreshInputDevices resolves to the empty device list, leaves every piece of
hook state unchanged (loading flag, device list, active device, error
included), and never invokes the enumeration service. -/
theorem c10_ssr_guard_is_inert (enumResult : OpResult (List Device)) (s : HookState) :
    refreshInputDevices false enumResult s = ⟨s, OpResult.ok [], false⟩ := rfl

/-- C6: disconnect() with no client resolves without error and changes no
state; with a client, the reference is cleared synchronously before the
teardown await, the final state is exactly that cleared state, and a teardown
failure makes the promise reject with that same error. -/
theorem c6_disconnect_contract (s : HookState) (teardownError : Option String) :
    (s.clientRef = none → disconnectOp s teardownError = ⟨s, OpResult.ok (), true⟩) ∧
    (s.clientRef ≠ none →
      (disconnectAwaitState s).clientRef = none ∧
      (disconnectOp s teardownError).state = disconnectAwaitState s ∧
      (disconnectOp s teardownError).result =
        (match teardownError with
         | none => OpResult.ok ()
         | some e => OpResult.error e)) := by
  constructor
  · intro h
    simp [disconnectOp, h]
  · intro h
    have h1 : s.clientRef.isNone = false := by
      cases hc : s.clientRef
      · exact absurd hc h
      · rfl
    cases teardownError <;> simp [disconnectOp, h1, disconnectAwaitState]

/-- C6 witness: the contract applied to a state with no client and to a state
with a live client and a failing teardown. -/
theorem c6_disconnect_contract_witness :
    (disconnectOp (initState opts0) none = ⟨initState opts0, OpResult.ok (), true⟩) ∧
    ((disconnectOp s1c (some "boom")).state.clientRef = none ∧
      (disconnectOp s1c (some "boom")).result = OpResult.error "boom") := by
  refine ⟨(c6_disconnect_contract (initState opts0) none).1 (by decide), ?_, ?_⟩
  · exact ((c6_disconnect_contract s1c (some "boom")).2 (by decide)).2.1 ▸ rfl
  · exact ((c6_disconnect_contract s1c (some "boom")).2 (by decide)).2.2

/-- C4 counterexample: a previous handle left userSpeaking true and the user
amplitude at 1; the next connect() resets the speaking flag but the amplitude
is still 1 (not 0) at the moment the new client is created, before any of its
events. -/
def s4 : HookState :=
  applyClientEvent client0 (ClientEvent.userAmplitude 1)
    (applyClientEvent client0 (ClientEvent.userSpeakingChange true) s1c)

theorem c4_counterexample :
    s4.userSpeaking = true ∧
    s4.userAudioAmplitude = 1 ∧
    (connectOp opts0 envOk s4).state.userSpeaking = false ∧
    (connectOp opts0 envOk s4).state.userAudioAmplitude = 1 := by decide

/-- C4 (amended): at the moment every connect() creates its new client and
before any event of that client is processed, userSpeaking and agentSpeaking
are false, but the amplitudes are not reset: they keep whatever values the
previous handle left. -/
theorem c4_amended_reset_at_create (opts : HookOptions) (env : ConnectEnv) (s : HookState) :
    (connectOp opts env s).state.userSpeaking = false ∧
    (connectOp opts env s).state.agentSpeaking = false ∧
    (connectOp opts env s).state.userAudioAmplitude = s.userAudioAmplitude ∧
    (connectOp opts env s).state.agentAudioAmplitude = s.agentAudioAmplitude := by
  rw [connectOp_state, clearOldClient_eq]
  exact ⟨rfl, rfl, rfl, rfl⟩

/-- C1: the claim fails on the code.  After a second connect() supersedes the
first handle, the hook still holds only one client (the new one), but the
superseded handle statusChange callback still writes the status snapshot,
because no callback compares its client with the current clientRef. -/
theorem c1_superseded_handle_event_mutates_snapshot :
    (connectOp opts0 envOk s1c).state.clientRef ≠ some client0 ∧
    (connectOp opts0 envOk s1c).state.status ≠ "stale" ∧
    (applyClientEvent client0 (ClientEvent.statusChange "stale")
        (connectOp opts0 envOk s1c).state).status = "stale" := by decide

/-- C2 counterexample: with the explicit conversationId "abc", an onConnect
event carrying the server id "xyz" overwrites the snapshot with "xyz"; the
claim says it remains "abc". -/
theorem c2_counterexample :
    sAbc.conversationIdRef = some "abc" ∧
    sAbc.internalConversationId = some (some "abc") ∧
    (applyClientEvent clientAbc (ClientEvent.connect (some "xyz")) sAbc).internalConversationId =
      some (some "xyz") ∧
    (applyClientEvent clientAbc (ClientEvent.connect (some "xyz")) sAbc).internalConversationId ≠
      some (some "abc") := by decide

/-- C2 (amended): with an explicit caller conversationId recorded in
conversationIdRef, an onConnect event overwrites the snapshot with the server
id whenever that id is non-null, and keeps the current snapshot value (or
null when it is unset) only when the server id is null. -/
theorem c2_amended_server_id_wins (c : Client) (s : HookState) (cid : Option String)
    (a : String) (h : s.conversationIdRef = some a) :
    (applyClientEvent c (ClientEvent.connect cid) s).internalConversationId =
      (match cid with
       | some v => some (some v)
       | none => some (s.internalConversationId.getD none)) := by
  cases cid <;> simp [applyClientEvent, h]

/-- C2 amended witness: the amended statement at the concrete scenario of the
claim (explicit id "abc", server id "xyz"). -/
theorem c2_amended_server_id_wins_witness :
    (applyClientEvent clientAbc (ClientEvent.connect (some "xyz")) sAbc).internalConversationId =
      some (some "xyz") :=
  c2_amended_server_id_wins clientAbc sAbc (some "xyz") "abc" (by decide)

/-- C8: for a hook without an explicit conversationId (conversationIdRef
unset), an onConnect event carrying the server id v makes the snapshot v, and
any later connect() in that situation builds its new client with
conversationId v and leaves the snapshot at v. -/
theorem c8_resolved_identity_sticky (opts : HookOptions) (env : ConnectEnv) (c : Client)
    (s : HookState) (v : String) (h : s.conversationIdRef = none) :
    (applyClientEvent c (ClientEvent.connect (some v)) s).internalConversationId =
      some (some v) ∧
    (connectOp opts env (applyClientEvent c (ClientEvent.connect (some v)) s)).created.config.conversationId =
      some v ∧
    (connectOp opts env (applyClientEvent c (ClientEvent.connect (some v)) s)).state.internalConversationId =
      some (some v) := by
  have h1 : (applyClientEvent c (ClientEvent.connect (some v)) s).internalConversationId =
      some (some v) := by
    simp [applyClientEvent, h]
  have h2 : (applyClientEvent c (ClientEvent.connect (some v)) s).conversationIdRef = none := by
    simp [applyClientEvent, h]
  refine ⟨h1, ?_, ?_⟩
  · rw [connectOp_created, clearOldClient_eq]
    show nextConversationId _ = some v
    unfold nextConversationId
    simp only []
    rw [show ({ applyClientEvent c (ClientEvent.connect (some v)) s with clientRef := none } : HookState).conversationIdRef =
          (applyClientEvent c (ClientEvent.connect (some v)) s).conversationIdRef from rfl, h2]
    rw [show ({ applyClientEvent c (ClientEvent.connect (some v)) s with clientRef := none } : HookState).internalConversationId =
          (applyClientEvent c (ClientEvent.connect (some v)) s).internalConversationId from rfl, h1]
  · rw [connectOp_state, clearOldClient_eq]
    exact h1

/-- C8 witness: the sticky resolved identity at the concrete scenario of the
claim (no explicit id, server id "xyz"). -/
theorem c8_resolved_identity_sticky_witness :
    (applyClientEvent client0 (ClientEvent.connect (some "xyz")) (initState opts0)).internalConversationId =
      some (some "xyz") ∧
    (connectOp opts0 envOk (applyClientEvent client0 (ClientEvent.connect (some "xyz")) (initState opts0))).created.config.conversationId =
      some "xyz" ∧
    (connectOp opts0 envOk (applyClientEvent client0 (ClientEvent.connect (some "xyz")) (initState opts0))).state.internalConversationId =
      some (some "xyz") :=
  c8_resolved_identity_sticky opts0 envOk client0 (initState opts0) "xyz" (by decide)

/-- C5 counterexample: with a live client whose teardown fails, connect()
does not pass the teardown error to the caller onError callback (it is only
written to the console) even though the new attempt proceeds and succeeds;
the claim says the failure is reported via the error callback. -/
theorem c5_counterexample :
    s1c.clientRef.isSome = true ∧
    (connectOp opts0 { envOk with oldDisconnectError := some "teardown failed" } s1c).onErrorCalls = [] ∧
    (connectOp opts0 { envOk with oldDisconnectError := some "teardown failed" } s1c).consoleErrors =
      ["teardown failed"] ∧
    (connectOp opts0 { envOk with oldDisconnectError := some "teardown failed" } s1c).result =
      OpResult.ok () := by decide

/-- C5 (amended): connect() disconnects an existing client first; a teardown
failure is only written to the console (never passed to the caller onError
callback) and does not abort the attempt; a failure of the new client connect
is passed to onError and rejects the connect() promise with the same error;
on success the non-blocking device refresh is triggered exactly when the
connected client reports audio input enabled. -/
theorem c5_amended_connect_contract (opts : HookOptions) (s : HookState)
    (ode : Option String) (cim : Bool) (ce : Option String) (aie : Bool) :
    (connectOp opts ⟨ode, cim, none, ce, aie⟩ s).oldDisconnectCalled = s.clientRef.isSome ∧
    (connectOp opts ⟨ode, cim, none, ce, aie⟩ s).state.clientRef =
      some (connectOp opts ⟨ode, cim, none, ce, aie⟩ s).created ∧
    (connectOp opts ⟨ode, cim, none, ce, aie⟩ s).consoleErrors =
      ((if s.clientRef.isSome then ode.toList else []) ++
        (match ce with | some e => [e] | none => [])) ∧
    (connectOp opts ⟨ode, cim, none, ce, aie⟩ s).onErrorCalls =
      (match ce with | some e => [e] | none => []) ∧
    (connectOp opts ⟨ode, cim, none, ce, aie⟩ s).result =
      (match ce with | some e => OpResult.error e | none => OpResult.ok ()) ∧
    (connectOp opts ⟨ode, cim, none, ce, aie⟩ s).refreshTriggered =
      (match ce with | some _ => false | none => aie) := by
  cases ce <;> cases ode <;>
    by_cases h : s.clientRef.isSome <;>
      simp [connectOp, createClientState, h]

/-- C3 counterexample: devices [A (default), B]; the user selects B, the
client confirms the switch, and a later refresh returns only [A (default)].
The active device is not recomputed: it stays B, while the claim says it
falls back to the registry default and becomes null in this scenario. -/
def s3a : HookState := (refreshInputDevices true (OpResult.ok [devA, devB]) s1c).state

def s3b : HookState := (selectInputDevice (some "B") none s3a).state

def s3c : HookState := applyClientEvent client0 (ClientEvent.deviceSwitched "B") s3b

def s3d : HookState := (refreshInputDevices true (OpResult.ok [devA]) s3c).state

theorem c3_counterexample :
    s3b.preferredInputDeviceId = some "B" ∧
    s3c.activeInputDeviceId = some "B" ∧
    s3d.activeInputDeviceId = some "B" ∧
    ¬ s3d.activeInputDeviceId = none := by decide

/-- Shared helper: a successful refresh with a non-empty list does not touch
the active device once a preference is recorded. -/
theorem refresh_ok_active_of_pref_some (s : HookState) (d : Device) (ds : List Device)
    (p : String) (hp : s.preferredInputDeviceRef = some p) (hm : s.mountedRef = true) :
    (refreshInputDevices true (OpResult.ok (d :: ds)) s).state.activeInputDeviceId =
      s.activeInputDeviceId := by
  simp [refreshInputDevices, hp, hm]

/-- C3 (amended): a refresh or hot-plug watch delivery with a non-empty
device list never recomputes activeInputDeviceId once a preference is
recorded, even when the preferred device is absent from the delivered list;
the fallback to the normalized registry default happens only while no
preference is recorded.  In the concrete scenario the active device stays at
its previous value instead of becoming null. -/
theorem c3_amended_no_fallback_when_preferred (s : HookState) (devs : List Device)
    (p : String) (hp : s.preferredInputDeviceRef = some p) (hm : s.mountedRef = true)
    (hd : devs ≠ []) :
    (refreshInputDevices true (OpResult.ok devs) s).state.activeInputDeviceId =
      s.activeInputDeviceId ∧
    (watchDevicesCallback devs s).activeInputDeviceId = s.activeInputDeviceId := by
  cases devs with
  | nil => exact absurd rfl hd
  | cons d ds =>
    constructor
    · exact refresh_ok_active_of_pref_some s d ds p hp hm
    · simp [watchDevicesCallback, hp]

/-- C3 amended witness: the amended statement at the concrete scenario
(preference B recorded, refresh returning only device A). -/
theorem c3_amended_no_fallback_when_preferred_witness :
    (refreshInputDevices true (OpResult.ok [devA]) s3c).state.activeInputDeviceId =
      s3c.activeInputDeviceId ∧
    (watchDevicesCallback [devA] s3c).activeInputDeviceId = s3c.activeInputDeviceId :=
  c3_amended_no_fallback_when_preferred s3c [devA] "B" (by decide) (by decide) (by decide)

/-- C7 counterexample: after a successful refresh the active device is A;
a later successful refresh returning the non-empty list [devDefault] (a
device whose platform identifier is the sentinel string) sets the active
device to null although the list is not empty, contradicting the only-when-
empty part of the claim. -/
def s7 : HookState := (refreshInputDevices true (OpResult.ok [devA]) (initState opts0)).state

theorem c7_counterexample :
    s7.activeInputDeviceId = some "A" ∧
    (refreshInputDevices true (OpResult.ok [devDefault]) s7).result =
      OpResult.ok [devDefault] ∧
    ¬ ([devDefault] = ([] : List Device)) ∧
    (refreshInputDevices true (OpResult.ok [devDefault]) s7).state.activeInputDeviceId = none := by
  decide

/-- C7 (amended): on enumeration failure refreshInputDevices records the
error message, rejects with the original error, and preserves both the
previous device list and the active device; on success the active device is
cleared to null when the list is empty, and on a non-empty list it is only
recomputed (to the normalized registry default, which can itself be null when
the default device identifier is empty or the sentinel string) while no
preference is recorded, and otherwise preserved. -/
theorem c7_amended_refresh_contract (s : HookState) (msg : String) (devs : List Device)
    (hm : s.mountedRef = true) :
    ((refreshInputDevices true (OpResult.error msg) s).state.inputDeviceListError = some msg ∧
     (refreshInputDevices true (OpResult.error msg) s).result = OpResult.error msg ∧
     (refreshInputDevices true (OpResult.error msg) s).state.availableInputDevices =
       s.availableInputDevices ∧
     (refreshInputDevices true (OpResult.error msg) s).state.activeInputDeviceId =
       s.activeInputDeviceId) ∧
    (devs = [] →
      (refreshInputDevices true (OpResult.ok devs) s).state.activeInputDeviceId = none) ∧
    (devs ≠ [] → s.preferredInputDeviceRef = none →
      (refreshInputDevices true (OpResult.ok devs) s).state.activeInputDeviceId =
        normalizeDeviceId ((pickDefault devs).map Device.deviceId)) ∧
    (devs ≠ [] → s.preferredInputDeviceRef ≠ none →
      (refreshInputDevices true (OpResult.ok devs) s).state.activeInputDeviceId =
        s.activeInputDeviceId) := by
  refine ⟨?_, ?_, ?_, ?_⟩
  · refine ⟨?_, ?_, ?_, ?_⟩ <;> simp [refreshInputDevices, hm]
  · intro hdev
    subst hdev
    simp [refreshInputDevices, hm]
  · intro hd hpref
    cases devs with
    | nil => exact absurd rfl hd
    | cons d ds => simp [refreshInputDevices, hm, hpref]
  · intro hd hpref
    obtain ⟨p, hp⟩ := Option.ne_none_iff_exists'.mp hpref
    cases devs with
    | nil => exact absurd rfl hd
    | cons d ds => exact refresh_ok_active_of_pref_some s d ds p hp hm

/-- C7 amended witness: the amended contract at a concrete mounted state, a
failing enumeration, and an empty successful enumeration. -/
theorem c7_amended_refresh_contract_witness :
    (refreshInputDevices true (OpResult.error "denied") (initState opts0)).state.inputDeviceListError =
      some "denied" ∧
    (refreshInputDevices true (OpResult.ok ([] : List Device)) (initState opts0)).state.activeInputDeviceId =
      none :=
  ⟨(c7_amended_refresh_contract (initState opts0) "denied" [] (by decide)).1.1,
   (c7_amended_refresh_contract (initState opts0) "denied" [] (by decide)).2.1 rfl⟩

/-! C9: normalization invariant on the stored device identifiers. -/

/-- Checks that an identifier field holds null or a non-empty string
different from the literal string used as the platform default sentinel. -/
def isNormalizedId : Option String → Bool
  | none => true
  | some s => if s = "" ∨ s = "default" then false else true

/-- Both stored device identifiers are normalized. -/
def DevIdInvariant (s : HookState) : Prop :=
  isNormalizedId s.preferredInputDeviceId = true ∧
  isNormalizedId s.activeInputDeviceId = true

/-- The null identifier is normalized. -/
theorem isNormalizedId_none : isNormalizedId none = true := rfl

/-- normalizeDeviceId always produces a normalized identifier. -/
theorem isNormalizedId_normalizeDeviceId (x : Option String) :
    isNormalizedId (normalizeDeviceId x) = true := by
  cases x with
  | none => rfl
  | some s =>
    by_cases h : s = "" ∨ s = "default" <;> simp [normalizeDeviceId, isNormalizedId, h]

/-- refreshInputDevices preserves the normalization invariant. -/
theorem devIdInvariant_refresh (hw : Bool) (r : OpResult (List Device)) (s : HookState)
    (h : DevIdInvariant s) : DevIdInvariant (refreshInputDevices hw r s).state := by
  obtain ⟨hp, ha⟩ := h
  cases hw
  · exact ⟨hp, ha⟩
  · cases r with
    | error msg =>
      by_cases hm : s.mountedRef <;>
        simp [refreshInputDevices, DevIdInvariant, hm, hp, ha]
    | ok devices =>
      by_cases hm : s.mountedRef
      · cases devices with
        | nil => simp [refreshInputDevices, DevIdInvariant, hm, hp, ha, isNormalizedId_none]
        | cons d ds =>
          by_cases hpref : s.preferredInputDeviceRef = none <;>
            simp [refreshInputDevices, DevIdInvariant, hm, hp, ha, hpref,
              isNormalizedId_normalizeDeviceId]
      · simp [refreshInputDevices, DevIdInvariant, hm, hp, ha]

/-- C9: the stored device identifiers preferredInputDeviceId and
activeInputDeviceId are always null or a non-empty string different from the
default sentinel: the invariant holds initially and is preserved by every
state-writing step of the hook (connect, disconnect, refresh, device
selection, hot-plug deliveries, client events, and the ref-sync effect),
because every incoming identifier is passed through normalizeDeviceId. -/
theorem c9_device_ids_normalized (opts : HookOptions) :
    DevIdInvariant (initState opts) ∧
    ∀ (a : Action) (s : HookState), DevIdInvariant s →
      DevIdInvariant (applyAction opts a s) := by
  refine ⟨⟨rfl, rfl⟩, ?_⟩
  intro a s h
  obtain ⟨hp, ha⟩ := h
  cases a with
  | connectCall env =>
    refine ⟨?_, ?_⟩
    · show isNormalizedId (connectOp opts env s).state.preferredInputDeviceId = true
      rw [(connectOp_device_ids opts env s).1]
      exact hp
    · show isNormalizedId (connectOp opts env s).state.activeInputDeviceId = true
      rw [(connectOp_device_ids opts env s).2]
      exact ha
  | disconnectCall err =>
    show DevIdInvariant (disconnectOp s err).state
    by_cases hc : s.clientRef.isNone <;> cases err <;>
      simp [disconnectOp, disconnectAwaitState, DevIdInvariant, hc, hp, ha]
  | refreshCall hw r =>
    exact devIdInvariant_refresh hw r s ⟨hp, ha⟩
  | selectDeviceCall did err =>
    show DevIdInvariant (selectInputDevice did err s).state
    by_cases hc : s.clientRef.isNone <;> cases err <;>
      simp [selectInputDevice, DevIdInvariant, hc, ha, isNormalizedId_normalizeDeviceId]
  | watchDelivery devices =>
    show DevIdInvariant (watchDevicesCallback devices s)
    cases devices with
    | nil => simp [watchDevicesCallback, DevIdInvariant, hp, ha, isNormalizedId_none]
    | cons d ds =>
      by_cases hpref : s.preferredInputDeviceRef = none <;>
        simp [watchDevicesCallback, DevIdInvariant, hp, ha, hpref,
          isNormalizedId_normalizeDeviceId]
  | clientEvent c e =>
    show DevIdInvariant (applyClientEvent c e s)
    cases e with
    | userAmplitude amplitude =>
      by_cases hmon : c.config.enableAmplitudeMonitoring <;>
        simp [applyClientEvent, DevIdInvariant, hmon, hp, ha]
    | agentAmplitude amplitude =>
      by_cases hmon : c.config.enableAmplitudeMonitoring <;>
        simp [applyClientEvent, DevIdInvariant, hmon, hp, ha]
    | deviceSwitched deviceId =>
      by_cases hpref : s.preferredInputDeviceRef = none <;>
        simp [applyClientEvent, DevIdInvariant, hpref, hp, ha,
          isNormalizedId_normalizeDeviceId]
    | statusChange newStatus => exact ⟨hp, ha⟩
    | userSpeakingChange isSpeaking => exact ⟨hp, ha⟩
    | agentSpeakingChange isSpeaking => exact ⟨hp, ha⟩
    | muteStateChange muted => exact ⟨hp, ha⟩
    | connect conversationId => exact ⟨hp, ha⟩
    | devicesChanged devices => exact ⟨hp, ha⟩
    | audioInputChanged next => exact ⟨hp, ha⟩
    | audioOutputChanged next => exact ⟨hp, ha⟩
  | syncPreferredRef =>
    exact ⟨hp, ha⟩

/-- C9 witness: the invariant holds initially and survives a selection of the
sentinel identifier (which is collapsed to null). -/
theorem c9_device_ids_normalized_witness :
    DevIdInvariant (initState opts0) ∧
    DevIdInvariant (applyAction opts0 (Action.selectDeviceCall (some "default") none) (initState opts0)) :=
  ⟨(c9_device_ids_normalized opts0).1,
   (c9_device_ids_normalized opts0).2 (Action.selectDeviceCall (some "default") none)
     (initState opts0) (by exact ⟨rfl, rfl⟩)⟩

end Layercode
